import Mathlib

/-!
Verification of the aqimon SDS011 driver stack: a shallow embedding of the
wire codec (`aqimon/read/sds011/responses.py`, `aqimon/read/sds011/__init__.py`)
and of the read-cycle orchestrator (`aqimon/read/novapm.py`), together with
theorems settling the specification claims about them.

Bytes are modelled as `Nat` (values 0–255 where it matters), byte strings as
`List Nat`, Python exceptions as an explicit error type threaded through
`Except`, and floats as exact rationals.
-/

namespace Aqimon

/-- Python exceptions raised by the driver code, as one inductive. -/
inductive PyError where
  | incompleteRead
  | incorrectWrapper
  | checksumFailed (expected actual : Nat)
  | incorrectCommand (expected actual : Nat)
  | incorrectCommandCode (expected actual : Nat)
  | attributeError (msg : String)
  | valueError (msg : String)
  | statisticsError
  | genericException (msg : String)
deriving DecidableEq

instance {ε α : Type} [DecidableEq ε] [DecidableEq α] : DecidableEq (Except ε α) := fun a b =>
  match a, b with
  | .error e1, .error e2 =>
    if h : e1 = e2 then .isTrue (by rw [h]) else .isFalse (by intro hc; cases hc; exact h rfl)
  | .error _, .ok _ => .isFalse (by intro hc; cases hc)
  | .ok _, .error _ => .isFalse (by intro hc; cases hc)
  | .ok a1, .ok a2 =>
    if h : a1 = a2 then .isTrue (by rw [h]) else .isFalse (by intro hc; cases hc; exact h rfl)

/-- Message head constant (`0xAA`, from `constants.py`). -/
def HEAD : Nat := 0xAA

/-- Message tail constant (`0xAB`, from `constants.py`). -/
def TAIL : Nat := 0xAB

/-- The submit frame type (`0xB4`, from `constants.py`). -/
def SUBMIT_TYPE : Nat := 0xB4

/-- ID bytes addressing all sensors (`b"\xff\xff"`, from `constants.py`). -/
def ALL_SENSOR_ID : List Nat := [0xFF, 0xFF]

/-- Possible commands for the device (`constants.py`). -/
inductive Command where
  | SET_REPORTING_MODE
  | QUERY
  | SET_DEVICE_ID
  | SET_SLEEP
  | SET_WORKING_PERIOD
  | CHECK_FIRMWARE_VERSION
deriving DecidableEq

/-- Byte value of each command (`constants.py`). -/
def Command.value : Command → Nat
  | .SET_REPORTING_MODE => 0x02
  | .QUERY => 0x04
  | .SET_DEVICE_ID => 0x05
  | .SET_SLEEP => 0x06
  | .SET_WORKING_PERIOD => 0x08
  | .CHECK_FIRMWARE_VERSION => 0x07

/-- Response types for commands (`constants.py`). -/
inductive ResponseType where
  | GENERAL_RESPONSE
  | QUERY_RESPONSE
deriving DecidableEq

/-- Byte value of each response type (`constants.py`). -/
def ResponseType.value : ResponseType → Nat
  | .GENERAL_RESPONSE => 0xC5
  | .QUERY_RESPONSE => 0xC0

/-- Sub-command: query the current value, or set it (`constants.py`). -/
inductive OperationType where
  | QUERY
  | SET_MODE
deriving DecidableEq

/-- Byte value of each operation type (`constants.py`). -/
def OperationType.value : OperationType → Nat
  | .QUERY => 0x00
  | .SET_MODE => 0x01

/-- Sleep state of the device (`constants.py`). -/
inductive SleepState where
  | SLEEP
  | WORK
deriving DecidableEq

/-- Byte value of each sleep state (`constants.py`). -/
def SleepState.value : SleepState → Nat
  | .SLEEP => 0x00
  | .WORK => 0x01

/-! ## Response decoding (`responses.py`) -/

/-- `ReadResponse.calc_checksum`: sum of the data bytes mod 256. -/
def calc_checksum (dataBytes : List Nat) : Nat := dataBytes.sum % 256

/-- The fields a `ReadResponse` object carries after successful validation
(`responses.py`, `ReadResponse.__init__`). -/
structure ReadResponse where
  head : Nat
  cmd_id : Nat
  data : List Nat
  device_id : List Nat
  checksum : Nat
  tail : Nat
deriving DecidableEq

/-- `ReadResponse.__init__` plus `ReadResponse.verify`: slice the 10-byte
buffer and run the checks, in source order (length, head, tail, checksum,
response type, then — for non-query responses only — the command code). -/
def decodeReadResponse (buf : List Nat) (command_code : Command)
    (response_type : ResponseType) : Except PyError ReadResponse :=
  if buf.length ≠ 10 then .error .incompleteRead
  else
    let head := buf.getD 0 0
    let cmd_id := buf.getD 1 0
    let dataB := (buf.drop 2).take 6
    let device_id := (buf.drop 6).take 2
    let checksum := buf.getD 8 0
    let tail := buf.getD 9 0
    if head ≠ HEAD then .error .incorrectWrapper
    else if tail ≠ TAIL then .error .incorrectWrapper
    else if checksum ≠ calc_checksum dataB then
      .error (.checksumFailed checksum (calc_checksum dataB))
    else if cmd_id ≠ response_type.value then
      .error (.incorrectCommand response_type.value cmd_id)
    else if response_type ≠ ResponseType.QUERY_RESPONSE ∧ dataB.getD 0 0 ≠ command_code.value then
      .error (.incorrectCommandCode command_code.value (dataB.getD 0 0))
    else .ok ⟨head, cmd_id, dataB, device_id, checksum, tail⟩

/-- Little-endian unsigned integer from a byte string
(Python `int.from_bytes(bs, byteorder="little")`). -/
def int_from_bytes_le (bs : List Nat) : Nat :=
  bs.foldr (fun b acc => b + 256 * acc) 0

/-- The pollutant values a `QueryReadResponse` carries. -/
structure QueryReadValues where
  pm25 : ℚ
  pm10 : ℚ
deriving DecidableEq

/-- `QueryReadResponse.__init__`: validate as a query-type response, then
parse `pm25` from raw bytes 2–3 and `pm10` from raw bytes 4–5, each a
little-endian 16-bit value divided by 10. -/
def decodeQueryReadResponse (buf : List Nat) : Except PyError QueryReadValues :=
  match decodeReadResponse buf Command.QUERY ResponseType.QUERY_RESPONSE with
  | .error e => .error e
  | .ok _ =>
    .ok ⟨(int_from_bytes_le ((buf.drop 2).take 2) : ℚ) / 10,
         (int_from_bytes_le ((buf.drop 4).take 2) : ℚ) / 10⟩

/-! ## Command encoding (`sds011/__init__.py`, `NovaPmReader`) -/

/-- `NovaPmReader._cmd_checksum`: requires exactly 15 data bytes, else raises
`AttributeError("Invalid checksum length.")`; returns their sum mod 256. -/
def cmd_checksum (data : List Nat) : Except PyError Nat :=
  if data.length ≠ 15 then .error (.attributeError "Invalid checksum length.")
  else .ok (data.sum % 256)

/-- `NovaPmReader._send_command`: build
`HEAD + SUBMIT_TYPE + cmd + checksum + TAIL` (computing the checksum first,
which raises before anything is written when `cmd` is not 15 bytes), check the
total length is 19, and return the frame that is written to the serial port. -/
def send_command (cmd : List Nat) : Except PyError (List Nat) :=
  match cmd_checksum cmd with
  | .error e => .error e
  | .ok ck =>
    let full_command := HEAD :: SUBMIT_TYPE :: (cmd ++ [ck, TAIL])
    if full_command.length ≠ 19 then
      .error (.genericException "Command length must be 19")
    else .ok full_command

/-- Python `bytes([x])`: a single byte, raising `ValueError` when the value is
outside `0..255`. -/
def pyBytesSingle (x : Int) : Except PyError Nat :=
  if 0 ≤ x ∧ x < 256 then .ok x.toNat
  else .error (.valueError "bytes must be in range(0, 256)")

/-- The guard condition of `NovaPmReader.set_working_period`: the Python
chained comparison `0 >= working_period >= 30`, i.e.
`0 >= working_period and working_period >= 30`. -/
def workingPeriodGuard (wp : Int) : Bool :=
  decide ((0 : Int) ≥ wp ∧ wp ≥ 30)

/-- `NovaPmReader.set_working_period`: run the (chained-comparison) range
guard, then build `SET_WORKING_PERIOD + SET_MODE + bytes([wp]) + 10 zero bytes
+ ALL_SENSOR_ID` and send it; returns the frame written to the stream. -/
def set_working_period (wp : Int) : Except PyError (List Nat) :=
  if workingPeriodGuard wp then
    .error (.attributeError "Working period must be between 0 and 30")
  else
    match pyBytesSingle wp with
    | .error e => .error e
    | .ok b =>
      send_command ([Command.SET_WORKING_PERIOD.value, OperationType.SET_MODE.value, b]
        ++ List.replicate 10 0 ++ ALL_SENSOR_ID)

/-- `NovaPmReader.set_sleep_state`: build
`SET_SLEEP + SET_MODE + state + 10 zero bytes + ALL_SENSOR_ID` and send it. -/
def set_sleep_state (s : SleepState) : Except PyError (List Nat) :=
  send_command ([Command.SET_SLEEP.value, OperationType.SET_MODE.value, s.value]
    ++ List.replicate 10 0 ++ ALL_SENSOR_ID)

/-- `NovaPmReader.sleep`: set the sleep state to SLEEP. -/
def novaSleep : Except PyError (List Nat) := set_sleep_state SleepState.SLEEP

/-! ## Active-mode facade (`ActiveModeReader`) -/

/-- The drain loop of `ActiveModeReader.sleep`:
`while len(self.ser_dev.read(10)) == 10: pass`.  `reads i` is the number of
bytes the `i`-th `read(10)` call returns.  The loop has no iteration bound in
the source; to stay executable it is rendered with explicit fuel, returning
`some i` when the loop exits at the `i`-th read and `none` when the fuel runs
out before any short read occurs. -/
def drainLoop (reads : Nat → Nat) : Nat → Nat → Option Nat
  | 0, _ => none
  | fuel + 1, i => if reads i = 10 then drainLoop reads fuel (i + 1) else some i

/-- `ActiveModeReader.sleep`: issue the sleep command, then drain 10-byte
reads until a short read. Returns the issued command frame and the drain
result. -/
def activeModeSleep (reads : Nat → Nat) (fuel : Nat) :
    Except PyError (List Nat) × Option Nat :=
  (novaSleep, drainLoop reads fuel 0)

/-! ## Read-cycle orchestrator (`novapm.py`, `OpinionatedReader.read`) -/

/-- Reader lifecycle status (`read/__init__.py`). -/
inductive ReaderStatus where
  | IDLE
  | WARM_UP
  | READING
  | ERRORING
deriving DecidableEq

/-- Reader lifecycle state (`read/__init__.py`): status plus last exception. -/
structure ReaderState where
  status : ReaderStatus
  last_exception : Option PyError
deriving DecidableEq

/-- A raw averaged read from the device (`read/__init__.py`, `AqiRead`). -/
structure AqiRead where
  pmtwofive : ℚ
  pmten : ℚ
deriving DecidableEq

/-- The behaviour of the underlying `NovaPmReader` as seen by one invocation
of `OpinionatedReader.read`: the outcome of each device call the orchestrator
makes, in the order it makes them.  `requestData`/`queryData` are indexed by
the loop iteration; the sleep/query-sleep pair appears once for the success
path and once for the `except` cleanup path, since the stateful device can
answer differently at those two points in time. -/
structure DeviceBehavior where
  wake : Except PyError Unit
  querySleepStateAfterWake : Except PyError Unit
  requestData : Nat → Except PyError Unit
  queryData : Nat → Except PyError (ℚ × ℚ)
  sleepAtEnd : Except PyError Unit
  querySleepStateAtEnd : Except PyError Unit
  sleepOnError : Except PyError Unit
  querySleepStateOnError : Except PyError Unit

/-- The sampling loop of `OpinionatedReader.read`: for each remaining
iteration, `request_data()` then `query_data()`, collecting the (pm2.5, pm10)
pairs; the first exception aborts the loop. -/
def collectFrom (dev : DeviceBehavior) : Nat → Nat → Except PyError (List (ℚ × ℚ))
  | _, 0 => .ok []
  | i, n + 1 =>
    match dev.requestData i with
    | .error e => .error e
    | .ok _ =>
      match dev.queryData i with
      | .error e => .error e
      | .ok p =>
        match collectFrom dev (i + 1) n with
        | .error e => .error e
        | .ok rest => .ok (p :: rest)

/-- `statistics.mean` on exact rationals. -/
def mean (l : List ℚ) : ℚ := l.sum / l.length

/-- `statistics.mean`, which raises `StatisticsError` on an empty sequence. -/
def meanE (l : List ℚ) : Except PyError ℚ :=
  if l.isEmpty then .error .statisticsError else .ok (mean l)

/-- The `try` block of `OpinionatedReader.read`: wake, confirm, sample
`iterations` times, sleep, confirm, then return the mean of each pollutant
sequence (unrounded, as `statistics.mean` computes it). -/
def readCycleBody (dev : DeviceBehavior) (iterations : Nat) : Except PyError AqiRead :=
  match dev.wake with
  | .error e => .error e
  | .ok _ =>
    match dev.querySleepStateAfterWake with
    | .error e => .error e
    | .ok _ =>
      match collectFrom dev 0 iterations with
      | .error e => .error e
      | .ok samples =>
        match dev.sleepAtEnd with
        | .error e => .error e
        | .ok _ =>
          match dev.querySleepStateAtEnd with
          | .error e => .error e
          | .ok _ =>
            match meanE (samples.map Prod.fst) with
            | .error e => .error e
            | .ok m25 =>
              match meanE (samples.map Prod.snd) with
              | .error e => .error e
              | .ok m10 => .ok ⟨m25, m10⟩

/-- `OpinionatedReader.read`, including its `except` clause: on success the
state is IDLE and the averaged pair is returned; on any exception `e` the
state is set to (ERRORING, e) and then — with no inner `try` — the cleanup
`sleep()` and `query_sleep_state()` run, so an exception from either of them
propagates instead of `e`.  Returns the final lifecycle state and the
propagated result. -/
def opinionatedRead (dev : DeviceBehavior) (iterations : Nat) :
    ReaderState × Except PyError AqiRead :=
  match readCycleBody dev iterations with
  | .ok r => (⟨.IDLE, none⟩, .ok r)
  | .error e =>
    let st : ReaderState := ⟨.ERRORING, some e⟩
    match dev.sleepOnError with
    | .error e2 => (st, .error e2)
    | .ok _ =>
      match dev.querySleepStateOnError with
      | .error e3 => (st, .error e3)
      | .ok _ => (st, .error e)

/-- Python's `round(q, 2)` as used in the specification's reading of the
averaging step: round to 2 decimal places. -/
def round2 (q : ℚ) : ℚ := (⌊q * 100 + 1 / 2⌋ : ℚ) / 100

/-- Swap the bytes at positions `i` and `j` of a byte string. -/
def swapBytes (l : List Nat) (i j : Nat) : List Nat :=
  (l.set i (l.getD j 0)).set j (l.getD i 0)

/-- Modelled from the spec: the conformant command decoder of the round-trip
property (the command encoder's inverse is not part of the repository).  Per
the spec's words it strips the head and frame-type bytes and verifies the
checksum and tail, recovering the command id and the payload bytes. -/
def conformant_decode_command (frame : List Nat) : Option (Nat × List Nat) :=
  if frame.length = 19 ∧ frame.getD 18 0 = TAIL
      ∧ frame.getD 17 0 = calc_checksum ((frame.drop 2).take 15) then
    some (frame.getD 2 0, (frame.drop 3).take 14)
  else none

/-- A device behaviour on which every call succeeds and the three samples are
pm2.5 = pm10 = 0.1, 0.1, 0.2: the arithmetic mean 2/15 has no finite 2-decimal
representation. -/
def fractionalMeanDevice : DeviceBehavior where
  wake := .ok ()
  querySleepStateAfterWake := .ok ()
  requestData := fun _ => .ok ()
  queryData := fun i => .ok (if i = 0 then (1/10, 1/10) else if i = 1 then (1/10, 1/10) else (2/10, 2/10))
  sleepAtEnd := .ok ()
  querySleepStateAtEnd := .ok ()
  sleepOnError := .ok ()
  querySleepStateOnError := .ok ()

/-- A device behaviour on which every call succeeds and the three samples are
pm2.5 = pm10 = 2.5, 3.0, 3.5 (the spec's worked example). -/
def specExampleDevice : DeviceBehavior where
  wake := .ok ()
  querySleepStateAfterWake := .ok ()
  requestData := fun _ => .ok ()
  queryData := fun i => .ok (5 / 2 + i / 2, 5 / 2 + i / 2)
  sleepAtEnd := .ok ()
  querySleepStateAtEnd := .ok ()
  sleepOnError := .ok ()
  querySleepStateOnError := .ok ()

/-- A device behaviour whose initial `wake()` raises `IncompleteReadException`
and whose cleanup calls succeed. -/
def wakeFailsDevice : DeviceBehavior where
  wake := .error .incompleteRead
  querySleepStateAfterWake := .ok ()
  requestData := fun _ => .ok ()
  queryData := fun _ => .ok (0, 0)
  sleepAtEnd := .ok ()
  querySleepStateAtEnd := .ok ()
  sleepOnError := .ok ()
  querySleepStateOnError := .ok ()

/-- A device behaviour whose initial `wake()` raises `IncompleteReadException`
and whose cleanup `sleep()` raises a different exception. -/
def cleanupFailsDevice : DeviceBehavior where
  wake := .error .incompleteRead
  querySleepStateAfterWake := .ok ()
  requestData := fun _ => .ok ()
  queryData := fun _ => .ok (0, 0)
  sleepAtEnd := .ok ()
  querySleepStateAtEnd := .ok ()
  sleepOnError := .error (.checksumFailed 1 2)
  querySleepStateOnError := .ok ()

/-! ## Helper lemmas -/

theorem getD_drop (l : List Nat) (i j : Nat) : (l.drop i).getD j 0 = l.getD (i + j) 0 := by
  rw [List.getD_eq_getElem?_getD, List.getD_eq_getElem?_getD, List.getElem?_drop]

theorem sum_set_add (l : List Nat) :
    ∀ i a, i < l.length → (l.set i a).sum + l.getD i 0 = l.sum + a := by
  induction l with
  | nil => intro i a h; simp at h
  | cons x t ih =>
    intro i a h
    cases i with
    | zero => simp [List.set]; omega
    | succ i =>
      have ht := ih i a (by simpa using h)
      simp only [List.set, List.sum_cons, List.getD_cons_succ]
      omega

theorem getD_set_ne (l : List Nat) (i j a : Nat) (h : i ≠ j) :
    (l.set i a).getD j 0 = l.getD j 0 := by
  rw [List.getD_eq_getElem?_getD, List.getD_eq_getElem?_getD, List.getElem?_set_ne h]

/-! ## Claim C6 -/

/-- C6 counterexample: the claim states that swapping two positions holding
distinct byte values changes the mod-256 checksum.  At the byte string
`[1, 2]`, swapping positions 0 and 1 — which hold the distinct values 1 and
2 — leaves the checksum unchanged. -/
theorem swap_distinct_bytes_checksum_cex :
    List.getD [1, 2] 0 0 ≠ List.getD [1, 2] 1 0 ∧
    swapBytes [1, 2] 0 1 = [2, 1] ∧
    calc_checksum (swapBytes [1, 2] 0 1) = calc_checksum [1, 2] := by decide

/-- C6 (amended): for every byte sequence and every pair of in-range
positions, swapping the bytes at those positions leaves the mod-256 checksum
unchanged — the summation is permutation-invariant, whether or not the two
values are equal. -/
theorem checksum_swap_invariant (l : List Nat) (i j : Nat)
    (hi : i < l.length) (hj : j < l.length) :
    calc_checksum (swapBytes l i j) = calc_checksum l := by
  have hsum : (swapBytes l i j).sum = l.sum := by
    by_cases hij : i = j
    · subst hij
      unfold swapBytes
      rw [List.set_set]
      have h := sum_set_add l i (l.getD i 0) hi
      omega
    · unfold swapBytes
      have hlen : (l.set i (l.getD j 0)).length = l.length := by simp
      have h1 := sum_set_add (l.set i (l.getD j 0)) j (l.getD i 0) (by rwa [hlen])
      have h2 := sum_set_add l i (l.getD j 0) hi
      have h3 : (l.set i (l.getD j 0)).getD j 0 = l.getD j 0 := getD_set_ne l i j _ hij
      rw [h3] at h1
      omega
  unfold calc_checksum
  rw [hsum]

/-- C6 witness: the amended invariance theorem applied at the concrete byte
string `[1, 2, 3]`, swapping positions 0 and 2. -/
theorem checksum_swap_invariant_witness :
    calc_checksum (swapBytes [1, 2, 3] 0 2) = calc_checksum [1, 2, 3] :=
  checksum_swap_invariant [1, 2, 3] 0 2 (by decide) (by decide)

/-! ## Claim C1 -/

/-- C1: the claim says `set_working_period` rejects 30 and every negative
value with `InvalidParameter` before any write.  The source's guard is the
chained comparison `0 >= working_period >= 30`, which is unsatisfiable, so the
validation never fires: this theorem shows the guard is `false` on every
input, and that 30 is consequently accepted and its command frame written.
(Negative inputs fail only later, inside `bytes([...])`, with `ValueError`.)
This contradicts the function's own docstring range ("between 0 and 30") and
is a code defect, not a spec defect. -/
theorem working_period_validation_dead :
    (∀ wp : Int, workingPeriodGuard wp = false) ∧
    set_working_period 30 =
      .ok [0xAA, 0xB4, 0x08, 0x01, 30, 0, 0, 0, 0, 0, 0, 0, 0, 0, 0, 0xFF, 0xFF, 37, 0xAB] ∧
    set_working_period (-1) = .error (.valueError "bytes must be in range(0, 256)") := by
  refine ⟨?_, by decide, by decide⟩
  intro wp
  simp only [workingPeriodGuard, decide_eq_false_iff_not]
  omega

/-! ## Claim C7 -/

/-- C7: for every 15-byte command (command id + body + target device id),
`_send_command` produces exactly the 19-byte frame
`HEAD, SUBMIT_TYPE, cmd, checksum, TAIL` whose checksum byte (index 17) is the
sum of the 15 command bytes mod 256; for any other input length it fails with
the `AttributeError("Invalid checksum length.")` raised by `_cmd_checksum`
before anything is written. -/
theorem encode_command_frame (cmd : List Nat) :
    (cmd.length = 15 →
      send_command cmd = .ok (HEAD :: SUBMIT_TYPE :: (cmd ++ [cmd.sum % 256, TAIL])) ∧
      (HEAD :: SUBMIT_TYPE :: (cmd ++ [cmd.sum % 256, TAIL])).length = 19 ∧
      (HEAD :: SUBMIT_TYPE :: (cmd ++ [cmd.sum % 256, TAIL])).getD 17 0 = cmd.sum % 256) ∧
    (cmd.length ≠ 15 → send_command cmd = .error (.attributeError "Invalid checksum length.")) := by
  constructor
  · intro h
    refine ⟨?_, by simp [h], ?_⟩
    · simp [send_command, cmd_checksum, h]
    · simp only [List.getD_cons_succ]
      rw [List.getD_append_right _ _ _ _ (by omega)]
      simp [h]
  · intro h
    simp [send_command, cmd_checksum, h]

/-- C7 witness: the frame theorem applied to the concrete 15-byte
set-working-period command body, and the length-failure branch applied to a
3-byte input. -/
theorem encode_command_frame_witness :
    send_command [8, 1, 30, 0, 0, 0, 0, 0, 0, 0, 0, 0, 0, 255, 255] =
      .ok [170, 180, 8, 1, 30, 0, 0, 0, 0, 0, 0, 0, 0, 0, 0, 255, 255, 37, 171] ∧
    send_command [1, 2, 3] = .error (.attributeError "Invalid checksum length.") :=
  ⟨((encode_command_frame [8, 1, 30, 0, 0, 0, 0, 0, 0, 0, 0, 0, 0, 255, 255]).1 (by decide)).1,
   (encode_command_frame [1, 2, 3]).2 (by decide)⟩

/-! ## Claim C8 -/

/-- C8 counterexample: the claim speaks of a command id plus a 13-byte
payload, but those 14 bytes are not the 15 bytes `_send_command` requires:
encoding a command id with a 13-byte payload produces no 19-byte frame at all
— it fails with the invalid-length `AttributeError`. -/
theorem encode_13_byte_payload_cex :
    (List.replicate 13 0).length = 13 ∧
    send_command (4 :: List.replicate 13 0) =
      .error (.attributeError "Invalid checksum length.") := by decide

/-- C8 (amended): for every command id and every 14-byte payload (body plus
2-byte target device id — 15 bytes in total with the id), encoding the command
and then decoding the resulting 19-byte frame with a conformant command
decoder recovers exactly the original command id and payload bytes. -/
theorem encode_decode_roundtrip (id : Nat) (payload : List Nat) (h : payload.length = 14) :
    send_command (id :: payload) =
      .ok (HEAD :: SUBMIT_TYPE :: ((id :: payload) ++ [(id :: payload).sum % 256, TAIL])) ∧
    conformant_decode_command
        (HEAD :: SUBMIT_TYPE :: ((id :: payload) ++ [(id :: payload).sum % 256, TAIL])) =
      some (id, payload) := by
  have hlen : (id :: payload).length = 15 := by simp [h]
  constructor
  · exact ((encode_command_frame (id :: payload)).1 hlen).1
  · have hck : ((HEAD :: SUBMIT_TYPE ::
        ((id :: payload) ++ [(id :: payload).sum % 256, TAIL])).drop 2).take 15 =
        id :: payload := by
      simp only [List.drop_succ_cons, List.drop_zero]
      exact List.take_left' hlen
    unfold conformant_decode_command
    rw [if_pos]
    · simp only [Option.some.injEq, Prod.mk.injEq]
      constructor
      · simp only [List.getD_cons_succ]
        rw [List.getD_append _ _ _ _ (by simp [h])]
        rfl
      · simp only [List.drop_succ_cons, List.drop_zero, List.cons_append]
        exact List.take_left' h
    · refine ⟨by simp [h], ?_, ?_⟩
      · simp only [List.getD_cons_succ]
        rw [List.getD_append_right _ _ _ _ (by simp [h])]
        simp [h, TAIL]
      · rw [hck]
        simp only [List.getD_cons_succ]
        rw [List.getD_append_right _ _ _ _ (by simp [h])]
        simp [h, calc_checksum]

/-- C8 witness: the round-trip theorem applied to command id 4 with the
14-byte payload of the query command (12 zero bytes plus the broadcast device
id). -/
theorem encode_decode_roundtrip_witness :
    send_command [4, 0, 0, 0, 0, 0, 0, 0, 0, 0, 0, 0, 0, 255, 255] =
      .ok [170, 180, 4, 0, 0, 0, 0, 0, 0, 0, 0, 0, 0, 0, 0, 255, 255, 2, 171] ∧
    conformant_decode_command [170, 180, 4, 0, 0, 0, 0, 0, 0, 0, 0, 0, 0, 0, 0, 255, 255, 2, 171] =
      some (4, [0, 0, 0, 0, 0, 0, 0, 0, 0, 0, 0, 0, 255, 255]) :=
  encode_decode_roundtrip 4 [0, 0, 0, 0, 0, 0, 0, 0, 0, 0, 0, 0, 255, 255] (by decide)

/-! ## Claim C4 -/

theorem data_getD_zero (buf : List Nat) (h : buf.length = 10) :
    ((buf.drop 2).take 6).getD 0 0 = buf.getD 2 0 := by
  rcases buf with _ | ⟨a, _ | ⟨b, _ | ⟨c, t⟩⟩⟩ <;> simp_all

/-- C4: response decoding applies its checks in this exact order, each with
its own distinct error: a buffer whose length is not 10 is an incomplete
read; then a bad head or bad tail byte is a malformed frame
(`IncorrectWrapperException`); then a checksum byte differing from the sum of
the 6 data bytes mod 256 is a checksum failure; then a response-type byte
differing from the expected one is an unexpected response type
(`IncorrectCommandException`); and, only for non-query responses, a first
data byte differing from the issued command id is an unexpected command
(`IncorrectCommandCodeException`); when every check passes the validated
response is returned. -/
theorem decode_checks_order (buf : List Nat) (cc : Command) (rt : ResponseType) :
    (buf.length ≠ 10 → decodeReadResponse buf cc rt = .error .incompleteRead) ∧
    (buf.length = 10 → buf.getD 0 0 ≠ HEAD →
      decodeReadResponse buf cc rt = .error .incorrectWrapper) ∧
    (buf.length = 10 → buf.getD 0 0 = HEAD → buf.getD 9 0 ≠ TAIL →
      decodeReadResponse buf cc rt = .error .incorrectWrapper) ∧
    (buf.length = 10 → buf.getD 0 0 = HEAD → buf.getD 9 0 = TAIL →
      buf.getD 8 0 ≠ calc_checksum ((buf.drop 2).take 6) →
      decodeReadResponse buf cc rt =
        .error (.checksumFailed (buf.getD 8 0) (calc_checksum ((buf.drop 2).take 6)))) ∧
    (buf.length = 10 → buf.getD 0 0 = HEAD → buf.getD 9 0 = TAIL →
      buf.getD 8 0 = calc_checksum ((buf.drop 2).take 6) →
      buf.getD 1 0 ≠ rt.value →
      decodeReadResponse buf cc rt = .error (.incorrectCommand rt.value (buf.getD 1 0))) ∧
    (buf.length = 10 → buf.getD 0 0 = HEAD → buf.getD 9 0 = TAIL →
      buf.getD 8 0 = calc_checksum ((buf.drop 2).take 6) →
      buf.getD 1 0 = rt.value → rt ≠ ResponseType.QUERY_RESPONSE →
      buf.getD 2 0 ≠ cc.value →
      decodeReadResponse buf cc rt = .error (.incorrectCommandCode cc.value (buf.getD 2 0))) ∧
    (buf.length = 10 → buf.getD 0 0 = HEAD → buf.getD 9 0 = TAIL →
      buf.getD 8 0 = calc_checksum ((buf.drop 2).take 6) →
      buf.getD 1 0 = rt.value →
      (rt = ResponseType.QUERY_RESPONSE ∨ buf.getD 2 0 = cc.value) →
      decodeReadResponse buf cc rt =
        .ok ⟨buf.getD 0 0, buf.getD 1 0, (buf.drop 2).take 6, (buf.drop 6).take 2,
             buf.getD 8 0, buf.getD 9 0⟩) := by
  refine ⟨?_, ?_, ?_, ?_, ?_, ?_, ?_⟩
  · intro h1
    simp only [decodeReadResponse]
    rw [if_pos h1]
  · intro h1 h2
    simp only [decodeReadResponse]
    rw [if_neg (by simpa using h1), if_pos h2]
  · intro h1 h2 h3
    simp only [decodeReadResponse]
    rw [if_neg (by simpa using h1), if_neg (by simpa using h2), if_pos h3]
  · intro h1 h2 h3 h4
    simp only [decodeReadResponse]
    rw [if_neg (by simpa using h1), if_neg (by simpa using h2), if_neg (by simpa using h3),
      if_pos h4]
  · intro h1 h2 h3 h4 h5
    simp only [decodeReadResponse]
    rw [if_neg (by simpa using h1), if_neg (by simpa using h2), if_neg (by simpa using h3),
      if_neg (by simpa using h4), if_pos h5]
  · intro h1 h2 h3 h4 h5 h6 h7
    rw [← data_getD_zero buf h1] at h7
    simp only [decodeReadResponse]
    rw [if_neg (by simpa using h1), if_neg (by simpa using h2), if_neg (by simpa using h3),
      if_neg (by simpa using h4), if_neg (by simpa using h5), if_pos ⟨h6, h7⟩,
      data_getD_zero buf h1]
  · intro h1 h2 h3 h4 h5 h6
    simp only [decodeReadResponse]
    rw [if_neg (by simpa using h1), if_neg (by simpa using h2), if_neg (by simpa using h3),
      if_neg (by simpa using h4), if_neg (by simpa using h5), if_neg ?_]
    rcases h6 with h6 | h6
    · intro hand
      exact hand.1 h6
    · rw [← data_getD_zero buf h1] at h6
      intro hand
      exact hand.2 h6

/-- C4 witness: the ordering theorem applied at concrete buffers — a 3-byte
buffer fails as an incomplete read, and a fully well-formed general response
for the query command id decodes successfully. -/
theorem decode_checks_order_witness :
    decodeReadResponse [0, 0, 0] Command.QUERY ResponseType.GENERAL_RESPONSE =
      .error .incompleteRead ∧
    decodeReadResponse [170, 197, 4, 0, 0, 0, 0, 0, 4, 171] Command.QUERY
        ResponseType.GENERAL_RESPONSE =
      .ok ⟨170, 197, [4, 0, 0, 0, 0, 0], [0, 0], 4, 171⟩ :=
  ⟨(decode_checks_order [0, 0, 0] Command.QUERY ResponseType.GENERAL_RESPONSE).1 (by decide),
   (decode_checks_order [170, 197, 4, 0, 0, 0, 0, 0, 4, 171] Command.QUERY
      ResponseType.GENERAL_RESPONSE).2.2.2.2.2.2 (by decide) (by decide) (by decide)
      (by decide) (by decide) (Or.inr (by decide))⟩

/-! ## Claim C5 -/

/-- C5 counterexample: the claim states that every 10-byte buffer with a
corrupted checksum byte fails with `ChecksumFailed`.  The buffer
`[0,0,0,0,0,0,0,0,1,0]` has a corrupted checksum byte (1 ≠ 0, the sum of its
data bytes mod 256), yet decoding fails with the head/tail wrapper error,
because the head check runs before the checksum check. -/
theorem corrupted_checksum_wrapper_cex :
    List.length [0, 0, 0, 0, 0, 0, 0, 0, 1, 0] = 10 ∧
    List.getD [0, 0, 0, 0, 0, 0, 0, 0, 1, 0] 8 0 ≠
      calc_checksum ((List.drop 2 [0, 0, 0, 0, 0, 0, 0, 0, 1, 0]).take 6) ∧
    decodeReadResponse [0, 0, 0, 0, 0, 0, 0, 0, 1, 0] Command.QUERY ResponseType.QUERY_RESPONSE =
      .error .incorrectWrapper := by decide

/-- C5 (amended): for any 10-byte buffer with the correct head and tail bytes
whose checksum byte does not equal the sum of its 6 data bytes mod 256,
decoding always fails with `ChecksumFailed` and never returns a validated
response. -/
theorem corrupted_checksum_always_fails (buf : List Nat) (cc : Command) (rt : ResponseType)
    (h10 : buf.length = 10) (hh : buf.getD 0 0 = HEAD) (ht : buf.getD 9 0 = TAIL)
    (hc : buf.getD 8 0 ≠ calc_checksum ((buf.drop 2).take 6)) :
    decodeReadResponse buf cc rt =
      .error (.checksumFailed (buf.getD 8 0) (calc_checksum ((buf.drop 2).take 6))) ∧
    ∀ r, decodeReadResponse buf cc rt ≠ .ok r := by
  have he : decodeReadResponse buf cc rt =
      .error (.checksumFailed (buf.getD 8 0) (calc_checksum ((buf.drop 2).take 6))) := by
    simp only [decodeReadResponse]
    rw [if_neg (by simpa using h10), if_neg (by simpa using hh), if_neg (by simpa using ht),
      if_pos hc]
  exact ⟨he, fun r hr => by rw [he] at hr; cases hr⟩

/-- C5 witness: the amended theorem applied to the concrete buffer
`[170, 192, 1, 0, 0, 0, 0, 0, 99, 171]`, whose data bytes sum to 1 but whose
checksum byte is 99. -/
theorem corrupted_checksum_always_fails_witness :
    decodeReadResponse [170, 192, 1, 0, 0, 0, 0, 0, 99, 171] Command.QUERY
        ResponseType.QUERY_RESPONSE =
      .error (.checksumFailed 99 1) :=
  (corrupted_checksum_always_fails [170, 192, 1, 0, 0, 0, 0, 0, 99, 171] Command.QUERY
    ResponseType.QUERY_RESPONSE (by decide) (by decide) (by decide) (by decide)).1

/-! ## Claim C9 -/

theorem decode_ok_length (buf : List Nat) (cc : Command) (rt : ResponseType) (r : ReadResponse)
    (h : decodeReadResponse buf cc rt = .ok r) : buf.length = 10 := by
  by_contra hlen
  simp only [decodeReadResponse] at h
  rw [if_pos hlen] at h
  cases h

theorem int_from_bytes_le_pair (buf : List Nat) (k : Nat) (hk : k + 2 ≤ buf.length) :
    int_from_bytes_le ((buf.drop k).take 2) = buf.getD k 0 + 256 * buf.getD (k + 1) 0 := by
  have g0 : buf.getD k 0 = (buf.drop k).getD 0 0 := by rw [getD_drop, Nat.add_zero]
  have g1 : buf.getD (k + 1) 0 = (buf.drop k).getD 1 0 := by rw [getD_drop]
  have h2 : 2 ≤ (buf.drop k).length := by
    simp only [List.length_drop]
    omega
  rcases hl : buf.drop k with _ | ⟨a, _ | ⟨b, t⟩⟩
  · rw [hl] at h2; simp at h2
  · rw [hl] at h2; simp at h2
  · rw [hl] at g0 g1
    rw [g0, g1]
    simp [int_from_bytes_le]

/-- C9: whenever a 10-byte frame is accepted as a query response, the parsed
pm2.5 value is the unsigned 16-bit little-endian integer formed from data
bytes 0–1 (raw bytes 2–3) divided by 10, and pm10 likewise from data bytes
2–3 (raw bytes 4–5); both parsed values are non-negative. -/
theorem query_response_pm_values (buf : List Nat) (r : QueryReadValues)
    (h : decodeQueryReadResponse buf = .ok r) :
    r.pm25 = ((buf.getD 2 0 : ℚ) + 256 * buf.getD 3 0) / 10 ∧
    r.pm10 = ((buf.getD 4 0 : ℚ) + 256 * buf.getD 5 0) / 10 ∧
    0 ≤ r.pm25 ∧ 0 ≤ r.pm10 := by
  unfold decodeQueryReadResponse at h
  cases hd : decodeReadResponse buf Command.QUERY ResponseType.QUERY_RESPONSE with
  | error e => rw [hd] at h; cases h
  | ok rr =>
    rw [hd] at h
    have hr : r = ⟨(int_from_bytes_le ((buf.drop 2).take 2) : ℚ) / 10,
        (int_from_bytes_le ((buf.drop 4).take 2) : ℚ) / 10⟩ := by
      cases h
      rfl
    have hlen := decode_ok_length buf Command.QUERY ResponseType.QUERY_RESPONSE rr hd
    subst hr
    rw [int_from_bytes_le_pair buf 2 (by omega), int_from_bytes_le_pair buf 4 (by omega)]
    refine ⟨by push_cast; ring, by push_cast; ring, ?_, ?_⟩ <;> positivity

/-- C9 witness: the parsing theorem applied to the concrete valid query
response `[170, 192, 25, 0, 30, 0, 1, 2, 58, 171]`, which decodes to
pm2.5 = 2.5 and pm10 = 3.0. -/
theorem query_response_pm_values_witness :
    (QueryReadValues.mk (5 / 2) 3).pm25 =
      ((List.getD [170, 192, 25, 0, 30, 0, 1, 2, 58, 171] 2 0 : ℚ) +
        256 * List.getD [170, 192, 25, 0, 30, 0, 1, 2, 58, 171] 3 0) / 10 ∧
    (QueryReadValues.mk (5 / 2) 3).pm10 =
      ((List.getD [170, 192, 25, 0, 30, 0, 1, 2, 58, 171] 4 0 : ℚ) +
        256 * List.getD [170, 192, 25, 0, 30, 0, 1, 2, 58, 171] 5 0) / 10 ∧
    0 ≤ (QueryReadValues.mk (5 / 2) 3).pm25 ∧ 0 ≤ (QueryReadValues.mk (5 / 2) 3).pm10 :=
  query_response_pm_values [170, 192, 25, 0, 30, 0, 1, 2, 58, 171] ⟨5 / 2, 3⟩ (by
    simp only [decodeQueryReadResponse, decodeReadResponse]
    norm_num [int_from_bytes_le, calc_checksum, HEAD, TAIL, ResponseType.value])

/-! ## Claim C10 -/

theorem drainLoop_none (reads : Nat → Nat) (hfull : ∀ i, reads i = 10) :
    ∀ fuel i, drainLoop reads fuel i = none := by
  intro fuel
  induction fuel with
  | zero => intro i; rfl
  | succ n ih =>
    intro i
    simp [drainLoop, hfull i, ih]

theorem drainLoop_stops (reads : Nat → Nat) :
    ∀ fuel k i, k < fuel → reads (i + k) ≠ 10 → (∀ j, j < k → reads (i + j) = 10) →
    drainLoop reads fuel i = some (i + k) := by
  intro fuel
  induction fuel with
  | zero =>
    intro k i hk
    omega
  | succ n ih =>
    intro k i hk hstop hfull
    cases k with
    | zero =>
      rw [Nat.add_zero] at hstop
      simp [drainLoop, hstop]
    | succ k' =>
      have h0 : reads i = 10 := by
        have := hfull 0 (Nat.succ_pos k')
        simpa using this
      have hrec := ih k' (i + 1) (by omega) (by
          have : i + 1 + k' = i + (k' + 1) := by omega
          rwa [this]) (fun j hj => by
          have := hfull (j + 1) (by omega)
          have he : i + (j + 1) = i + 1 + j := by omega
          rwa [he] at this)
      simp only [drainLoop, h0, if_pos]
      rw [hrec]
      congr 1
      omega

/-- C10: `ActiveModeReader.sleep` issues the sleep command (the fixed 19-byte
sleep frame is written), then loops reading 10-byte frames: for any fuel
bound, if every read returns 10 bytes the drain loop never finishes (the
source has no iteration bound), and if the `k`-th read is the first to return
other than 10 bytes (with `k` within fuel) the loop terminates exactly there. -/
theorem active_sleep_drain (reads : Nat → Nat) (fuel : Nat) :
    (activeModeSleep reads fuel).1 =
      .ok [0xAA, 0xB4, 0x06, 0x01, 0x00, 0, 0, 0, 0, 0, 0, 0, 0, 0, 0, 0xFF, 0xFF, 5, 0xAB] ∧
    ((∀ i, reads i = 10) → (activeModeSleep reads fuel).2 = none) ∧
    (∀ k, k < fuel → reads k ≠ 10 → (∀ j, j < k → reads j = 10) →
      (activeModeSleep reads fuel).2 = some k) := by
  refine ⟨rfl, ?_, ?_⟩
  · intro hfull
    exact drainLoop_none reads hfull fuel 0
  · intro k hk hstop hfull
    have := drainLoop_stops reads fuel k 0 hk (by simpa using hstop) (by simpa using hfull)
    simpa using this

/-- C10 witness: the drain theorem applied to a transport that always returns
full 10-byte reads (never terminates, for fuel 5) and to one whose third read
is short (terminates at index 2). -/
theorem active_sleep_drain_witness :
    (activeModeSleep (fun _ => 10) 5).2 = none ∧
    (activeModeSleep (fun i => if i < 2 then 10 else 3) 5).2 = some 2 :=
  ⟨(active_sleep_drain (fun _ => 10) 5).2.1 (fun _ => rfl),
   (active_sleep_drain (fun i => if i < 2 then 10 else 3) 5).2.2 2 (by decide) (by decide)
     (fun j hj => if_pos hj)⟩

/-! ## Claim C2 -/

theorem collectFrom_ok (dev : DeviceBehavior) (f : Nat → ℚ × ℚ) :
    ∀ n i, (∀ j, j < n → dev.requestData (i + j) = .ok () ∧ dev.queryData (i + j) = .ok (f (i + j))) →
    collectFrom dev i n = .ok ((List.range n).map fun k => f (i + k)) := by
  intro n
  induction n with
  | zero =>
    intro i _
    simp [collectFrom]
  | succ n ih =>
    intro i h
    have h0 := h 0 (Nat.succ_pos n)
    rw [Nat.add_zero] at h0
    have hrec := ih (i + 1) (fun j hj => by
      have := h (j + 1) (by omega)
      have he : i + (j + 1) = i + 1 + j := by omega
      rwa [he] at this)
    simp only [collectFrom, h0.1, h0.2, hrec]
    congr 1
    rw [List.range_succ_eq_map]
    simp only [List.map_cons, Nat.add_zero, List.map_map]
    congr 1
    apply List.map_congr_left
    intro k _
    simp only [Function.comp_apply, Nat.succ_eq_add_one]
    congr 1
    omega

/-- C2 counterexample: the claim states the orchestrator returns the means
rounded to 2 decimal places.  Over a device returning pm2.5 samples
0.1, 0.1, 0.2 the cycle returns exactly 2/15 = 0.1333… — the raw
`statistics.mean`, which is not equal to its 2-decimal rounding 0.13; the
source applies no rounding. -/
theorem read_mean_not_rounded_cex :
    (opinionatedRead fractionalMeanDevice 3).2 = .ok ⟨2 / 15, 2 / 15⟩ ∧
    round2 (2 / 15) = 13 / 100 ∧
    (2 / 15 : ℚ) ≠ 13 / 100 := by
  refine ⟨?_, ?_, by norm_num⟩
  · have hc : collectFrom fractionalMeanDevice 0 3 =
        .ok [(1 / 10, 1 / 10), (1 / 10, 1 / 10), (2 / 10, 2 / 10)] := by
      simp [collectFrom, fractionalMeanDevice]
    simp only [opinionatedRead, readCycleBody, hc,
      show fractionalMeanDevice.wake = Except.ok () from rfl,
      show fractionalMeanDevice.querySleepStateAfterWake = Except.ok () from rfl,
      show fractionalMeanDevice.sleepAtEnd = Except.ok () from rfl,
      show fractionalMeanDevice.querySleepStateAtEnd = Except.ok () from rfl]
    norm_num [meanE, mean]
  · have hf : ⌊(2 / 15 : ℚ) * 100 + 1 / 2⌋ = 13 := by
      rw [Int.floor_eq_iff]
      constructor <;> norm_num
    simp only [round2, hf]
    norm_num

/-- C2 (amended): for every successful read cycle with a fixed positive
sample count, the orchestrator's read returns the exact (unrounded)
arithmetic mean of the collected pm2.5 samples and of the collected pm10
samples, and leaves the lifecycle state IDLE; in particular pm2.5 samples
2.5, 3.0, 3.5 yield an averaged pm2.5 of exactly 3.0. -/
theorem read_returns_exact_means (dev : DeviceBehavior) (f : Nat → ℚ × ℚ) (n : Nat)
    (hn : 0 < n)
    (hw : dev.wake = .ok ()) (hq : dev.querySleepStateAfterWake = .ok ())
    (hs : ∀ j, j < n → dev.requestData j = .ok () ∧ dev.queryData j = .ok (f j))
    (he : dev.sleepAtEnd = .ok ()) (hqe : dev.querySleepStateAtEnd = .ok ()) :
    opinionatedRead dev n =
      (⟨.IDLE, none⟩, .ok ⟨mean ((List.range n).map fun k => (f k).1),
                           mean ((List.range n).map fun k => (f k).2)⟩) := by
  have hc : collectFrom dev 0 n = .ok ((List.range n).map f) := by
    have := collectFrom_ok dev f n 0 (by simpa using hs)
    simpa using this
  have hnz : ¬(n = 0) := by omega
  simp only [opinionatedRead, readCycleBody, hw, hq, hc, he, hqe]
  simp [meanE, hnz, List.map_map, Function.comp_def]

/-- C2 witness: the exact-mean theorem applied to a device returning pm2.5 =
pm10 = 2.5, 3.0, 3.5 over three samples — the cycle ends IDLE and both
averages are exactly 3.0. -/
theorem read_returns_exact_means_witness :
    opinionatedRead specExampleDevice 3 = (⟨.IDLE, none⟩, .ok ⟨3, 3⟩) := by
  have h := read_returns_exact_means specExampleDevice
    (fun i => (5 / 2 + i / 2, 5 / 2 + i / 2)) 3 (by omega) rfl rfl
    (fun j _ => ⟨rfl, rfl⟩) rfl rfl
  rw [h]
  norm_num [mean, List.range_succ]

/-! ## Claim C3 -/

/-- C3 counterexample: the claim states that a failure during the cleanup
sleep is swallowed and never replaces the original exception.  On a device
whose `wake()` raises `IncompleteReadException` and whose cleanup `sleep()`
raises `ChecksumFailedException`, the orchestrator propagates the cleanup
exception, not the original one: the `except` block runs `sleep()` with no
inner `try`. -/
theorem cleanup_error_replaces_original_cex :
    readCycleBody cleanupFailsDevice 1 = .error .incompleteRead ∧
    (opinionatedRead cleanupFailsDevice 1).1 = ⟨.ERRORING, some .incompleteRead⟩ ∧
    (opinionatedRead cleanupFailsDevice 1).2 = .error (.checksumFailed 1 2) ∧
    PyError.checksumFailed 1 2 ≠ PyError.incompleteRead :=
  ⟨rfl, rfl, rfl, by decide⟩

/-- C3 (amended): when any exception occurs during a read cycle, the
orchestrator sets the lifecycle state to ERRORING with the original exception
retained as the last error, and then attempts to put the device to sleep
before propagating; if the cleanup sleep and its confirming read succeed the
original exception propagates, but a failure during the cleanup is not
swallowed — the cleanup exception propagates in place of the original. -/
theorem read_error_path (dev : DeviceBehavior) (n : Nat) (e : PyError)
    (h : readCycleBody dev n = .error e) :
    (opinionatedRead dev n).1 = ⟨.ERRORING, some e⟩ ∧
    (dev.sleepOnError = .ok () → dev.querySleepStateOnError = .ok () →
      (opinionatedRead dev n).2 = .error e) ∧
    (∀ e2, dev.sleepOnError = .error e2 → (opinionatedRead dev n).2 = .error e2) ∧
    (∀ e3, dev.sleepOnError = .ok () → dev.querySleepStateOnError = .error e3 →
      (opinionatedRead dev n).2 = .error e3) := by
  refine ⟨?_, ?_, ?_, ?_⟩
  · simp only [opinionatedRead, h]
    cases hs : dev.sleepOnError with
    | error e2 => rfl
    | ok u =>
      cases hq : dev.querySleepStateOnError with
      | error e3 => rfl
      | ok v => rfl
  · intro h1 h2
    simp [opinionatedRead, h, h1, h2]
  · intro e2 h2
    simp [opinionatedRead, h, h2]
  · intro e3 h1 h2
    simp [opinionatedRead, h, h1, h2]

/-- C3 witness: the error-path theorem applied to a device whose `wake()`
fails with `IncompleteReadException` and whose cleanup succeeds — the state
ends ERRORING retaining that exception, and the same exception propagates. -/
theorem read_error_path_witness :
    (opinionatedRead wakeFailsDevice 1).1 = ⟨.ERRORING, some .incompleteRead⟩ ∧
    (opinionatedRead wakeFailsDevice 1).2 = .error .incompleteRead := by
  have h := read_error_path wakeFailsDevice 1 .incompleteRead rfl
  exact ⟨h.1, h.2.1 rfl rfl⟩

end Aqimon
